import Mathlib

/-!
Shallow embedding of the `simple_chatbot` repository (src/index.ts, 4-intent
variant with the static contact list).  The program is a LangGraph state
graph: a classifier node stores an intent label in the state, a conditional
edge dispatches on that label (falling back to "logical" when it is
undefined), and one of four responder nodes appends the external model
reply to the message history.  A CLI loop reads lines, stops on "exit"
(case-insensitive), and otherwise pushes the line as a user message and
invokes the graph.

External LLM calls are modelled by an `Oracle` record: the classifier call
is a function from the call input (a list of messages) to an intent label —
the structured-output schema guarantees the label is in the closed
enumeration, which the return type `Intent` captures — and the generation
call is a function from the call input to a reply message.
-/

namespace SimpleChatbot

/-- Message role tags, as in `@langchain/core/messages`. -/
inductive Role where
  | user
  | assistant
  | system
deriving DecidableEq, Repr

/-- A chat message: role tag plus text content. -/
structure Message where
  role : Role
  content : String
deriving DecidableEq, Repr

/-- Embeds `new HumanMessage(c)`. -/
def HumanMessage (c : String) : Message := ⟨Role.user, c⟩

/-- Embeds `new SystemMessage(c)`. -/
def SystemMessage (c : String) : Message := ⟨Role.system, c⟩

/-- The closed intent enumeration of the Zod schema:
`z.enum(["emotional", "logical", "general", "contact_request"])`. -/
inductive Intent where
  | emotional
  | logical
  | general
  | contact_request
deriving DecidableEq, Repr

/-- The string tag of an intent label. -/
def Intent.toStr : Intent → String
  | .emotional => "emotional"
  | .logical => "logical"
  | .general => "general"
  | .contact_request => "contact_request"

/-- The state type of the graph: the message history plus a
nullable intent label (`"emotional" | "logical" | "general" |
"contact_request" | undefined`). -/
structure ChatState where
  messages : List Message
  intent : Option Intent
deriving DecidableEq, Repr

/-- Embeds `type Contact = \x7b name: string; phone: string; city: string \x7d`. -/
structure Contact where
  name : String
  phone : String
  city : String
deriving DecidableEq, Repr

/-- The module-level contact list literal. -/
def contacts : List Contact :=
  [ ⟨"Andi", "08123456789", "Makassar"⟩,
    ⟨"Budi", "08987654321", "Bone"⟩ ]

/-- The module-level mutable bindings of the program.  The only `let`
binding at module level is `contacts`; threading it through every
operation lets us state that no operation writes to it. -/
structure Globals where
  contacts : List Contact
deriving DecidableEq, Repr

/-- The globals at process start. -/
def initGlobals : Globals := ⟨contacts⟩

/-- Embeds `state.messages[state.messages.length - 1]` — JavaScript indexing past
the end yields `undefined`, so the access is modelled as an `Option`. -/
def lastMessage (ms : List Message) : Option Message :=
  ms.get? (ms.length - 1)

/-- One row of `JSON.stringify(contacts, null, 2)`. -/
def serializeContact (c : Contact) : String :=
  "  \x7b\n    \x22name\x22: \x22" ++ c.name ++
  "\x22,\n    \x22phone\x22: \x22" ++ c.phone ++
  "\x22,\n    \x22city\x22: \x22" ++ c.city ++ "\x22\n  \x7d"

/-- Embeds `JSON.stringify(contacts, null, 2)`. -/
def serializeContacts (cs : List Contact) : String :=
  "[\n" ++ String.intercalate ",\n" (cs.map serializeContact) ++ "\n]"

/-- The fixed classifier instruction text. -/
def classifierPrompt : String :=
  "Classify the user message as either:\n" ++
  "       - \x27emotional\x27: for emotional support or feelings\n" ++
  "       - \x27logical\x27: for facts, information, or general queries not covered by the above\n" ++
  "       - \x27general\x27: for greetings (e.g., \x22hello\x22, \x22hi\x22) or simple small talk\n" ++
  "       - \x27contact_request\x27: if the user asks for contact information, phone number, contact list\n       "

/-- The fixed persona instruction of `logicalNode`. -/
def logicalPrompt : String :=
  "You are a purely logical assistant. Focus only on facts and information.\n" ++
  "       Provide clear, concise answers based on logic and evidence.\n" ++
  "       Do not address emotions or provide emotional support.\n" ++
  "       Be direct and straightforward in your responses."

/-- The fixed persona instruction of `emotionalNode`. -/
def emotionalPrompt : String :=
  "You are a compassionate therapist. Focus on the emotional aspects of the user\x27s message.\n" ++
  "       Show empathy, validate their feelings, and help them process their emotions.\n" ++
  "       Ask thoughtful questions to help them explore their feelings more deeply.\n" ++
  "       Avoid giving logical solutions unless explicitly asked."

/-- The fixed persona instruction of `generalNode`. -/
def generalPrompt : String :=
  "You are a friendly chatbot. Handle greetings and small talk casually.\n" ++
  "       Be warm, polite, and concise."

/-- The part of the `contactNode` system prompt before the serialized list. -/
def contactPromptBefore : String :=
  "Kamu adalah asisten kontak. \n" ++
  "  Gunakan data kontak yang diberikan untuk menjawab pertanyaan user.\n" ++
  "  Jika user bertanya nomor seseorang, cari di daftar. \n" ++
  "  Jika tidak ditemukan, jawab dengan sopan \x22kontak tidak ditemukan\x22. \n" ++
  "  Jika user minta menambahkan kontak, katakan bahwa fungsi tambah belum tersedia \n" ++
  "  (kecuali kalau nanti ditambahkan update DB).\n      \n  Daftar kontak:\n  "

/-- The part of the `contactNode` system prompt after the serialized list. -/
def contactPromptAfter : String := "\n      "

/-- The system prompt a responder node sends, per intent; the contact
responder interpolates the serialized contact list. -/
def personaPrompt (g : Globals) : Intent → String
  | .logical => logicalPrompt
  | .emotional => emotionalPrompt
  | .general => generalPrompt
  | .contact_request =>
      contactPromptBefore ++ serializeContacts g.contacts ++ contactPromptAfter

/-- The human-message wrapper around the latest user content:
`contactNode` uses `Pesan user: "..."`, the other nodes `Message: "..."`. -/
def humanWrap : Intent → String → String
  | .contact_request, c => "Pesan user: \x22" ++ c ++ "\x22"
  | _, c => "Message: \x22" ++ c ++ "\x22"

/-- The message list sent to the structured-output classification call:
the fixed instruction plus the content of the latest message. -/
def classifierInput (c : String) : List Message :=
  [SystemMessage (classifierPrompt), HumanMessage ("Message: \x22" ++ c ++ "\x22")]

/-- The message list a responder node sends to the generation call. -/
def responderInput (g : Globals) (i : Intent) (c : String) : List Message :=
  [SystemMessage (personaPrompt g i), HumanMessage (humanWrap i c)]

/-- The external model, as the program uses it: a structured-classification
capability (constrained by the Zod enum, hence returning `Intent`) and a
free-text generation capability.  Both are functions of the full call
input. -/
structure Oracle where
  classify : List Message → Intent
  generate : List Message → Message

/-- The classifier node: reads the last message, calls the structured-output
classification, and returns the state with the intent overwritten.  `none`
models the TypeError thrown when `messages` is empty (`last.content` on
`undefined`). -/
def classifierNode (o : Oracle) (s : ChatState) : Option ChatState :=
  match lastMessage s.messages with
  | none => none
  | some last =>
      some { s with intent := some (o.classify (classifierInput last.content)) }

/-- A responder node (`logicalNode`, `emotionalNode`, `generalNode`,
`contactNode`, selected by `i`): reads the last message, calls generation
with its persona prompt, and appends the reply.  The globals are threaded
through unchanged — no node assigns to `contacts`. -/
def responderNode (o : Oracle) (g : Globals) (i : Intent) (s : ChatState) :
    Option (Globals × ChatState) :=
  match lastMessage s.messages with
  | none => none
  | some last =>
      some (g, { s with
        messages := s.messages ++ [o.generate (responderInput g i last.content)] })

/-- Node names of the compiled graph. -/
inductive NodeName where
  | classifier
  | logical
  | emotional
  | general
  | contact_request
deriving DecidableEq, Repr

/-- The string name of a graph node. -/
def NodeName.toStr : NodeName → String
  | .classifier => "classifier"
  | .logical => "logical"
  | .emotional => "emotional"
  | .general => "general"
  | .contact_request => "contact_request"

/-- Whether a node is one of the four responder nodes. -/
def NodeName.isResponder : NodeName → Bool
  | .classifier => false
  | _ => true

/-- The conditional-edge path function `(state) => state.intent ?? "logical"`. -/
def routeLabel (s : ChatState) : Intent :=
  s.intent.getD Intent.logical

/-- The conditional-edge path map `{ logical: "logical", emotional:
"emotional", general: "general", contact_request: "contact_request" }`. -/
def edgeMap : Intent → NodeName
  | .logical => NodeName.logical
  | .emotional => NodeName.emotional
  | .general => NodeName.general
  | .contact_request => NodeName.contact_request

/-- The responder node the dispatcher selects after the classifier. -/
def dispatch (s : ChatState) : NodeName :=
  edgeMap (routeLabel s)

/-- Embeds `app.invoke(state)`: START → classifier → (conditional edge) → one
responder → END.  Returns the updated globals, the list of nodes executed
in order, and the final state. -/
def invokeTrace (o : Oracle) (g : Globals) (s : ChatState) :
    Option (Globals × List NodeName × ChatState) :=
  match classifierNode o s with
  | none => none
  | some s1 =>
      match responderNode o g (routeLabel s1) s1 with
      | none => none
      | some (g1, s2) => some (g1, [NodeName.classifier, dispatch s1], s2)

/-- Embeds `userInput.toLowerCase()`: character-wise lowercasing of the input
line. -/
def toLowerCase (s : String) : String :=
  ⟨s.data.map Char.toLower⟩

/-- Embeds `state.messages.push(new HumanMessage(userInput))`. -/
def pushUser (input : String) (s : ChatState) : ChatState :=
  { s with messages := s.messages ++ [HumanMessage (input)] }

/-- Outcome of one iteration of the `while (true)` loop in `main`. -/
inductive StepResult where
  | exited
  | continued (trace : List NodeName) (s : ChatState)
  | failed
deriving DecidableEq, Repr

/-- One iteration of the CLI loop: `exit` (case-insensitive) breaks;
otherwise the input is pushed as a user message and the graph is invoked.
`failed` models an unhandled rejection of `app.invoke`. -/
def mainStep (o : Oracle) (g : Globals) (input : String) (s : ChatState) :
    Globals × StepResult :=
  if toLowerCase input = "exit" then (g, StepResult.exited)
  else
    match invokeTrace o g (pushUser input s) with
    | some (g1, tr, s1) => (g1, StepResult.continued tr s1)
    | none => (g, StepResult.failed)

/-- The whole run loop over a finite list of input lines, threading the
globals and the conversation state. -/
def runLoop (o : Oracle) : List String → Globals → ChatState → Globals × ChatState
  | [], g, s => (g, s)
  | input :: rest, g, s =>
      match mainStep o g input s with
      | (g1, StepResult.exited) => (g1, s)
      | (g1, StepResult.continued _ s1) => runLoop o rest g1 s1
      | (g1, StepResult.failed) => (g1, s)

/-- Embeds the initial state `\x7b messages: [], intent: undefined \x7d`. -/
def initState : ChatState := ⟨[], none⟩

/-- A stub oracle, as the spec prescribes for deterministic testing:
fixed label, fixed reply. -/
def stubOracle : Oracle :=
  ⟨fun _ => Intent.general, fun _ => ⟨Role.assistant, "ok"⟩⟩

/-- A stub oracle whose classification always returns `contact_request`. -/
def contactOracle : Oracle :=
  ⟨fun _ => Intent.contact_request, fun _ => ⟨Role.assistant, "ok"⟩⟩

/-! ## Helper lemmas -/

theorem lastMessage_append (ms : List Message) (m : Message) :
    lastMessage (ms ++ [m]) = some m := by
  unfold lastMessage
  simp only [List.length_append, List.length_singleton, Nat.add_sub_cancel]
  simp [List.get?_eq_getElem?, List.getElem?_concat_length]

theorem lastMessage_isSome (ms : List Message) (h : ms ≠ []) :
    ∃ m, lastMessage ms = some m := by
  have hlt : ms.length - 1 < ms.length := by
    cases ms with
    | nil => exact absurd rfl h
    | cons a l => simp
  exact ⟨ms.get ⟨ms.length - 1, hlt⟩, List.get?_eq_get hlt⟩

theorem classifierNode_eq (o : Oracle) (s : ChatState) (m : Message)
    (h : lastMessage s.messages = some m) :
    classifierNode o s =
      some { s with intent := some (o.classify (classifierInput m.content)) } := by
  unfold classifierNode
  rw [h]

theorem responderNode_eq (o : Oracle) (g : Globals) (i : Intent) (s : ChatState)
    (m : Message) (h : lastMessage s.messages = some m) :
    responderNode o g i s =
      some (g, { s with
        messages := s.messages ++ [o.generate (responderInput g i m.content)] }) := by
  unfold responderNode
  rw [h]

theorem invokeTrace_eq (o : Oracle) (g : Globals) (s : ChatState) (m : Message)
    (h : lastMessage s.messages = some m) :
    invokeTrace o g s = some (g,
      [NodeName.classifier, edgeMap (o.classify (classifierInput m.content))],
      { messages := s.messages ++
          [o.generate (responderInput g (o.classify (classifierInput m.content)) m.content)],
        intent := some (o.classify (classifierInput m.content)) }) := by
  unfold invokeTrace
  rw [classifierNode_eq o s m h]
  dsimp only
  rw [responderNode_eq o g _
    { s with intent := some (o.classify (classifierInput m.content)) } m h]
  dsimp only [dispatch, routeLabel, Option.getD]

theorem invokeTrace_some (o : Oracle) (g : Globals) (s : ChatState)
    (h : s.messages ≠ []) :
    ∃ tr s1, invokeTrace o g s = some (g, tr, s1) := by
  obtain ⟨m, hm⟩ := lastMessage_isSome s.messages h
  exact ⟨_, _, invokeTrace_eq o g s m hm⟩

theorem invokeTrace_globals (o : Oracle) (g : Globals) (s : ChatState)
    (r : Globals × List NodeName × ChatState) (h : invokeTrace o g s = some r) :
    r.1 = g := by
  by_cases hm : s.messages = []
  · exfalso
    unfold invokeTrace classifierNode at h
    have hl : lastMessage s.messages = none := by
      rw [hm]; rfl
    rw [hl] at h
    simp at h
  · obtain ⟨m, hmm⟩ := lastMessage_isSome s.messages hm
    rw [invokeTrace_eq o g s m hmm] at h
    injection h with h1
    rw [← h1]

theorem mainStep_globals (o : Oracle) (g : Globals) (input : String)
    (s : ChatState) : (mainStep o g input s).1 = g := by
  unfold mainStep
  split
  · rfl
  · cases hI : invokeTrace o g (pushUser input s) with
    | none => rfl
    | some r =>
        obtain ⟨g1, tr, s1⟩ := r
        exact invokeTrace_globals o g (pushUser input s) (g1, tr, s1) hI

theorem runLoop_globals (o : Oracle) (inputs : List String) (g : Globals)
    (s : ChatState) : (runLoop o inputs g s).1 = g := by
  induction inputs generalizing g s with
  | nil => rfl
  | cons input rest ih =>
      have hg := mainStep_globals o g input s
      unfold runLoop
      cases hh : mainStep o g input s with
      | mk g1 res =>
          rw [hh] at hg
          cases res with
          | exited => exact hg
          | continued tr s1 => rw [ih]; exact hg
          | failed => exact hg

/-! ## Claim theorems -/

/-- C1: for every label of the fixed intent enumeration, the dispatcher run
after the classifier selects exactly the responder node of the same name
(and that node is a responder, not the classifier); a missing (undefined)
intent label routes to the default responder "logical".  Unrecognized
labels cannot occur: the conditional-edge function returns a value of the
closed enumeration. -/
theorem dispatcher_routes_by_label (ms : List Message) :
    (∀ i : Intent, dispatch ⟨ms, some i⟩ = edgeMap i ∧
      (edgeMap i).toStr = i.toStr ∧ (edgeMap i).isResponder = true) ∧
    dispatch ⟨ms, none⟩ = NodeName.logical := by
  refine ⟨fun i => ⟨rfl, ?_, ?_⟩, rfl⟩ <;> cases i <;> rfl

/-- C5: every responder node, given a state with a last message and the
external reply, returns the state with exactly that reply appended to the
message list and the intent label (and the globals) unchanged. -/
theorem responder_appends_one_frame (o : Oracle) (g : Globals) (i : Intent)
    (s : ChatState) (m : Message) (h : lastMessage s.messages = some m) :
    responderNode o g i s = some (g,
      { messages := s.messages ++ [o.generate (responderInput g i m.content)],
        intent := s.intent }) :=
  responderNode_eq o g i s m h

/-- C5 witness. -/
theorem responder_appends_one_frame_witness :
    responderNode stubOracle initGlobals Intent.logical
        ⟨[HumanMessage ("hi")], none⟩ =
      some (initGlobals,
        { messages := [HumanMessage ("hi")] ++
            [stubOracle.generate (responderInput initGlobals Intent.logical "hi")],
          intent := none }) :=
  responder_appends_one_frame stubOracle initGlobals Intent.logical
    ⟨[HumanMessage ("hi")], none⟩ (HumanMessage ("hi")) rfl

/-- C6: the classifier node overwrites only the intent field with the
label returned by the structured-output call; the message list is
unchanged, and the tag of the stored label is always a member of the closed
enumeration of the Zod schema. -/
theorem classifier_overwrites_intent_only (o : Oracle) (s : ChatState)
    (m : Message) (h : lastMessage s.messages = some m) :
    classifierNode o s = some
      { messages := s.messages,
        intent := some (o.classify (classifierInput m.content)) } ∧
    (o.classify (classifierInput m.content)).toStr ∈
      ["emotional", "logical", "general", "contact_request"] := by
  refine ⟨classifierNode_eq o s m h, ?_⟩
  cases o.classify (classifierInput m.content) <;> simp [Intent.toStr]

/-- C6 witness. -/
theorem classifier_overwrites_intent_only_witness :
    classifierNode stubOracle ⟨[HumanMessage ("Halo")], none⟩ = some
      { messages := [HumanMessage ("Halo")],
        intent := some (stubOracle.classify (classifierInput "Halo")) } ∧
    (stubOracle.classify (classifierInput "Halo")).toStr ∈
      ["emotional", "logical", "general", "contact_request"] :=
  classifier_overwrites_intent_only stubOracle ⟨[HumanMessage ("Halo")], none⟩
    (HumanMessage ("Halo")) rfl

/-- C3: the history is append-only.  For a responder node appending the
model reply, and for the run loop pushing the user input, every prior
entry is retained unchanged at its original position and the new message
appears only at the end (the length grows by exactly one). -/
theorem history_append_only (o : Oracle) (g g1 : Globals) (i : Intent)
    (input : String) (s s1 : ChatState)
    (h : responderNode o g i s = some (g1, s1)) :
    (s1.messages.length = s.messages.length + 1 ∧
     (∀ k, k < s.messages.length → s1.messages.get? k = s.messages.get? k) ∧
     ∃ r, s1.messages.get? s.messages.length = some r) ∧
    ((pushUser input s).messages.length = s.messages.length + 1 ∧
     (∀ k, k < s.messages.length →
        (pushUser input s).messages.get? k = s.messages.get? k) ∧
     (pushUser input s).messages.get? s.messages.length =
        some (HumanMessage (input))) := by
  have hmsg : ∃ r, s1.messages = s.messages ++ [r] := by
    unfold responderNode at h
    cases hl : lastMessage s.messages <;> rw [hl] at h
    · exact absurd h (by simp)
    · exact ⟨_, by simp at h; rw [← h.2]⟩
  obtain ⟨r, hr⟩ := hmsg
  refine ⟨⟨?_, ?_, ⟨r, ?_⟩⟩, ?_, ?_, ?_⟩
  · rw [hr]; simp
  · intro k hk; rw [hr]; exact List.get?_append hk
  · rw [hr]; simp [List.get?_eq_getElem?, List.getElem?_concat_length]
  · simp [pushUser]
  · intro k hk; simp only [pushUser]; exact List.get?_append hk
  · simp [pushUser, List.get?_eq_getElem?, List.getElem?_concat_length]

/-- C3 witness. -/
theorem history_append_only_witness :
    ((⟨[HumanMessage ("hi"), ⟨Role.assistant, "ok"⟩], none⟩ : ChatState).messages.length =
        (⟨[HumanMessage ("hi")], none⟩ : ChatState).messages.length + 1 ∧
     (∀ k, k < (⟨[HumanMessage ("hi")], none⟩ : ChatState).messages.length →
        (⟨[HumanMessage ("hi"), ⟨Role.assistant, "ok"⟩], none⟩ : ChatState).messages.get? k =
          (⟨[HumanMessage ("hi")], none⟩ : ChatState).messages.get? k) ∧
     ∃ r, (⟨[HumanMessage ("hi"), ⟨Role.assistant, "ok"⟩], none⟩ : ChatState).messages.get?
        (⟨[HumanMessage ("hi")], none⟩ : ChatState).messages.length = some r) ∧
    ((pushUser "yo" ⟨[HumanMessage ("hi")], none⟩).messages.length =
        (⟨[HumanMessage ("hi")], none⟩ : ChatState).messages.length + 1 ∧
     (∀ k, k < (⟨[HumanMessage ("hi")], none⟩ : ChatState).messages.length →
        (pushUser "yo" ⟨[HumanMessage ("hi")], none⟩).messages.get? k =
          (⟨[HumanMessage ("hi")], none⟩ : ChatState).messages.get? k) ∧
     (pushUser "yo" ⟨[HumanMessage ("hi")], none⟩).messages.get?
        (⟨[HumanMessage ("hi")], none⟩ : ChatState).messages.length =
       some (HumanMessage ("yo"))) :=
  history_append_only stubOracle initGlobals initGlobals Intent.logical "yo"
    ⟨[HumanMessage ("hi")], none⟩ ⟨[HumanMessage ("hi"), ⟨Role.assistant, "ok"⟩], none⟩
    (by rfl)

/-- C2: an input whose lowercase form is "exit" makes the loop terminate —
the state (hence the message list) is returned unchanged and no node runs;
any other input is pushed as a new user message and the graph is invoked
on the extended state. -/
theorem cli_exit_or_forward (o : Oracle) (g : Globals) (input : String)
    (s : ChatState) (rest : List String) :
    (toLowerCase input = "exit" →
      mainStep o g input s = (g, StepResult.exited) ∧
      runLoop o (input :: rest) g s = (g, s)) ∧
    (toLowerCase input ≠ "exit" →
      ∃ tr s1, invokeTrace o g (pushUser input s) = some (g, tr, s1) ∧
        mainStep o g input s = (g, StepResult.continued tr s1) ∧ tr ≠ []) := by
  constructor
  · intro hx
    have h1 : mainStep o g input s = (g, StepResult.exited) := by
      unfold mainStep
      rw [if_pos hx]
    refine ⟨h1, ?_⟩
    unfold runLoop
    rw [h1]
  · intro hx
    have hm : lastMessage (pushUser input s).messages = some (HumanMessage (input)) :=
      lastMessage_append s.messages (HumanMessage (input))
    refine ⟨_, _, invokeTrace_eq o g (pushUser input s) (HumanMessage (input)) hm,
      ?_, by simp⟩
    unfold mainStep
    rw [if_neg hx, invokeTrace_eq o g (pushUser input s) (HumanMessage (input)) hm]

/-- C2 witness. -/
theorem cli_exit_or_forward_witness :
    (mainStep stubOracle initGlobals "EXIT" initState =
        (initGlobals, StepResult.exited) ∧
      runLoop stubOracle ["EXIT"] initGlobals initState = (initGlobals, initState)) ∧
    ∃ tr s1, invokeTrace stubOracle initGlobals (pushUser "Halo" initState) =
        some (initGlobals, tr, s1) ∧
      mainStep stubOracle initGlobals "Halo" initState =
        (initGlobals, StepResult.continued tr s1) ∧ tr ≠ [] :=
  ⟨(cli_exit_or_forward stubOracle initGlobals "EXIT" initState []).1 (by decide),
   (cli_exit_or_forward stubOracle initGlobals "Halo" initState []).2 (by decide)⟩

/-- C4: each graph invocation is the linear path Start → classifier →
exactly one responder → End: the executed-node trace starts with the
classifier, has length two, contains no node twice, runs the classifier
exactly once and exactly one responder. -/
theorem graph_linear_once (o : Oracle) (g : Globals) (s : ChatState)
    (h : s.messages ≠ []) :
    ∃ tr s1, invokeTrace o g s = some (g, tr, s1) ∧
      tr.head? = some NodeName.classifier ∧
      tr.length = 2 ∧ tr.Nodup ∧
      tr.count NodeName.classifier = 1 ∧
      tr.countP (fun n => n.isResponder) = 1 := by
  obtain ⟨m, hm⟩ := lastMessage_isSome s.messages h
  refine ⟨_, _, invokeTrace_eq o g s m hm, rfl, rfl, ?_, ?_, ?_⟩ <;>
    cases o.classify (classifierInput m.content) <;> decide

/-- C4 witness. -/
theorem graph_linear_once_witness :
    ∃ tr s1, invokeTrace stubOracle initGlobals ⟨[HumanMessage ("Halo")], none⟩ =
        some (initGlobals, tr, s1) ∧
      tr.head? = some NodeName.classifier ∧
      tr.length = 2 ∧ tr.Nodup ∧
      tr.count NodeName.classifier = 1 ∧
      tr.countP (fun n => n.isResponder) = 1 :=
  graph_linear_once stubOracle initGlobals ⟨[HumanMessage ("Halo")], none⟩ (by simp)

/-- C7: the static contact list is never mutated over a whole process run:
after any finite list of input lines, the globals — in particular the
contact list started from the module-level literal — are unchanged. -/
theorem contacts_never_mutated (o : Oracle) (inputs : List String)
    (g : Globals) (s : ChatState) :
    (runLoop o inputs g s).1 = g ∧
    (runLoop o inputs initGlobals s).1.contacts = contacts :=
  ⟨runLoop_globals o inputs g s, by rw [runLoop_globals]; rfl⟩

/-- C8: when the classifier stores "contact_request", the contact responder
node is invoked next, its system prompt contains the serialized contact
list, and its call input pairs that prompt with the latest user message. -/
theorem contact_request_routing (o : Oracle) (g : Globals) (s : ChatState)
    (m : Message) (h : lastMessage s.messages = some m)
    (hc : o.classify (classifierInput m.content) = Intent.contact_request) :
    invokeTrace o g s = some (g,
      [NodeName.classifier, NodeName.contact_request],
      { messages := s.messages ++
          [o.generate (responderInput g Intent.contact_request m.content)],
        intent := some Intent.contact_request }) ∧
    (∃ a b, personaPrompt g Intent.contact_request =
        a ++ serializeContacts g.contacts ++ b) ∧
    responderInput g Intent.contact_request m.content =
      [SystemMessage (personaPrompt g Intent.contact_request),
       HumanMessage ("Pesan user: \x22" ++ m.content ++ "\x22")] := by
  refine ⟨?_, ⟨contactPromptBefore, contactPromptAfter, rfl⟩, rfl⟩
  rw [invokeTrace_eq o g s m h, hc]
  rfl

/-- C8 witness. -/
theorem contact_request_routing_witness :
    invokeTrace contactOracle initGlobals
        ⟨[HumanMessage ("Apa nomor telepon Andi?")], none⟩ = some (initGlobals,
      [NodeName.classifier, NodeName.contact_request],
      { messages := [HumanMessage ("Apa nomor telepon Andi?")] ++
          [contactOracle.generate (responderInput initGlobals
            Intent.contact_request "Apa nomor telepon Andi?")],
        intent := some Intent.contact_request }) ∧
    (∃ a b, personaPrompt initGlobals Intent.contact_request =
        a ++ serializeContacts initGlobals.contacts ++ b) ∧
    responderInput initGlobals Intent.contact_request "Apa nomor telepon Andi?" =
      [SystemMessage (personaPrompt initGlobals Intent.contact_request),
       HumanMessage ("Pesan user: \x22Apa nomor telepon Andi?\x22")] :=
  contact_request_routing contactOracle initGlobals
    ⟨[HumanMessage ("Apa nomor telepon Andi?")], none⟩
    (HumanMessage ("Apa nomor telepon Andi?")) rfl rfl

/-- C9: every node builds its external-call input from only the last
content alone: two states whose last messages have the same content yield
identical classifier and responder call inputs, and — under the same
oracle — the same stored label and the same appended reply. -/
theorem nodes_read_only_last_message (o : Oracle) (g : Globals)
    (s t : ChatState) (m m' : Message)
    (hs : lastMessage s.messages = some m)
    (ht : lastMessage t.messages = some m')
    (hc : m.content = m'.content) :
    classifierInput m.content = classifierInput m'.content ∧
    (∀ i, responderInput g i m.content = responderInput g i m'.content) ∧
    (∃ ι, classifierNode o s = some { s with intent := some ι } ∧
          classifierNode o t = some { t with intent := some ι }) ∧
    ∀ i, ∃ r,
      responderNode o g i s = some (g, { s with messages := s.messages ++ [r] }) ∧
      responderNode o g i t = some (g, { t with messages := t.messages ++ [r] }) := by
  refine ⟨by rw [hc], fun i => by rw [hc], ?_, ?_⟩
  · exact ⟨o.classify (classifierInput m.content), classifierNode_eq o s m hs,
      by rw [hc]; exact classifierNode_eq o t m' ht⟩
  · intro i
    exact ⟨o.generate (responderInput g i m.content), responderNode_eq o g i s m hs,
      by rw [hc]; exact responderNode_eq o g i t m' ht⟩

/-- C9 witness: two states with different histories but the same last
content get the same stored label. -/
theorem nodes_read_only_last_message_witness :
    ∃ ι, classifierNode stubOracle
        ⟨[HumanMessage ("a"), HumanMessage ("x")], none⟩ =
        some { messages := [HumanMessage ("a"), HumanMessage ("x")],
               intent := some ι } ∧
      classifierNode stubOracle
        ⟨[HumanMessage ("b"), HumanMessage ("x")], some Intent.emotional⟩ =
        some { messages := [HumanMessage ("b"), HumanMessage ("x")],
               intent := some ι } :=
  (nodes_read_only_last_message stubOracle initGlobals
    ⟨[HumanMessage ("a"), HumanMessage ("x")], none⟩
    ⟨[HumanMessage ("b"), HumanMessage ("x")], some Intent.emotional⟩
    (HumanMessage ("x")) (HumanMessage ("x")) rfl rfl rfl).2.2.1

/-- C10: the unguarded `messages[messages.length - 1]` access is defined
whenever the message list is non-empty — both the classifier and every
responder then succeed — and the run loop establishes that precondition by
pushing the user input before invoking the graph, so a non-exit input
never reaches the out-of-bounds branch. -/
theorem last_index_access_safe (o : Oracle) (g : Globals) (input : String)
    (s : ChatState) (h : toLowerCase input ≠ "exit") :
    (∀ u : ChatState, u.messages ≠ [] →
      (∃ su, classifierNode o u = some su) ∧
      ∀ i, ∃ gu su, responderNode o g i u = some (gu, su)) ∧
    (pushUser input s).messages ≠ [] ∧
    (mainStep o g input s).2 ≠ StepResult.failed := by
  refine ⟨?_, by simp [pushUser], ?_⟩
  · intro u hu
    obtain ⟨m, hm⟩ := lastMessage_isSome u.messages hu
    exact ⟨⟨_, classifierNode_eq o u m hm⟩,
      fun i => ⟨g, _, responderNode_eq o g i u m hm⟩⟩
  · have hm : lastMessage (pushUser input s).messages = some (HumanMessage (input)) :=
      lastMessage_append s.messages (HumanMessage (input))
    unfold mainStep
    rw [if_neg h, invokeTrace_eq o g (pushUser input s) (HumanMessage (input)) hm]
    simp

/-- C10 witness. -/
theorem last_index_access_safe_witness :
    (mainStep stubOracle initGlobals "Halo" initState).2 ≠ StepResult.failed :=
  (last_index_access_safe stubOracle initGlobals "Halo" initState (by decide)).2.2

end SimpleChatbot
